import Mathlib

/-!
Verification of the QOA-to-WAV converter (src/tools/ExtractTimToPng/qoa2wav.c).

The C program is embedded shallowly:

* `write_wav_header` mirrors the C function of the same name: it fills the
  `wav_header_t` struct fields from `(sample_rate, channels, num_samples)`.
  All `uint32_t` / `uint16_t` arithmetic is modelled on `Nat` with explicit
  `% 2^32` / `% 2^16` reductions where the C types truncate.
* `headerBytes` models `fwrite(&header, sizeof(wav_header_t), 1, fp)`.
  For this struct every field is naturally aligned (4-byte fields at offsets
  0,4,8,12,16,24,28,36,40 and 2-byte fields at 20,22,32,34), so
  `sizeof(wav_header_t) = 44` with no padding on mainstream ABIs; the byte
  image is the fields in declaration order, each multi-byte integer in HOST
  byte order. The `hostLE` parameter records the host's endianness
  (`true` = little-endian host).
* `wavFileBytes` models the success path of `convert_qoa_to_wav`
  (lines 85-86): the header write followed by
  `fwrite(sample_data, sizeof(short), qoa.samples * qoa.channels, fp)`.
* `qoa_desc` / the `decode` parameter model the external QOA decoder.
  `qoa.h` is not part of this repository's sources; per the spec the decoder
  is an opaque oracle returning a PCM buffer plus metadata, where `samples`
  is the per-channel sample-frame count and the buffer holds
  `samples * channels` interleaved 16-bit samples.
* `deriveWavPathL` mirrors the `strrchr`/`strcpy`/`strcat` output-path
  derivation in `main`; `mainModel` mirrors `main`'s argument dispatch.
  The fixed 512-byte `wav_path` buffer is modelled as unbounded (paths are
  assumed shorter than the buffer, as any non-crashing run requires).
-/

namespace Qoa2Wav

/-- Little-endian byte image of a 16-bit value (value taken mod 2^16). -/
def le16 (n : Nat) : List Nat := [n % 256, n / 256 % 256]

/-- Big-endian byte image of a 16-bit value (value taken mod 2^16). -/
def be16 (n : Nat) : List Nat := [n / 256 % 256, n % 256]

/-- Little-endian byte image of a 32-bit value (value taken mod 2^32). -/
def le32 (n : Nat) : List Nat :=
  [n % 256, n / 2 ^ 8 % 256, n / 2 ^ 16 % 256, n / 2 ^ 24 % 256]

/-- Big-endian byte image of a 32-bit value (value taken mod 2^32). -/
def be32 (n : Nat) : List Nat :=
  [n / 2 ^ 24 % 256, n / 2 ^ 16 % 256, n / 2 ^ 8 % 256, n % 256]

/-- Host-order byte image of a `uint16_t` as stored in memory. -/
def w16 (hostLE : Bool) (n : Nat) : List Nat := if hostLE then le16 n else be16 n

/-- Host-order byte image of a `uint32_t` as stored in memory. -/
def w32 (hostLE : Bool) (n : Nat) : List Nat := if hostLE then le32 n else be32 n

/-- The integer fields of `wav_header_t` (qoa2wav.c lines 10-24). The four
`char[4]` tag fields are constants and appear in the serialization. -/
structure wav_header_t where
  file_size : Nat
  fmt_size : Nat
  audio_format : Nat
  num_channels : Nat
  sample_rate : Nat
  byte_rate : Nat
  block_align : Nat
  bits_per_sample : Nat
  data_size : Nat
deriving DecidableEq

/-- `write_wav_header` (qoa2wav.c lines 26-45), up to the final `fwrite`:
the header struct it fills. Parameters are a `uint32_t` sample rate, a
`uint16_t` channel count and a `uint32_t` sample count, so each argument is
reduced to its C type's range on entry, exactly as a C call converts it. -/
def write_wav_header (sample_rate channels num_samples : Nat) : wav_header_t :=
  let sr := sample_rate % 2 ^ 32
  let ch := channels % 2 ^ 16
  let ns := num_samples % 2 ^ 32
  let data_size := ns * ch * 2 % 2 ^ 32
  { file_size := (data_size + 36) % 2 ^ 32
    fmt_size := 16
    audio_format := 1
    num_channels := ch
    sample_rate := sr
    byte_rate := sr * ch * 2 % 2 ^ 32
    block_align := ch * 2 % 2 ^ 16
    bits_per_sample := 16
    data_size := data_size }

/-- ASCII bytes of the "RIFF" tag. -/
def riffTag : List Nat := [82, 73, 70, 70]

/-- ASCII bytes of the "WAVE" tag. -/
def waveTag : List Nat := [87, 65, 86, 69]

/-- ASCII bytes of the "fmt " tag. -/
def fmtTag : List Nat := [102, 109, 116, 32]

/-- ASCII bytes of the "data" tag. -/
def dataTag : List Nat := [100, 97, 116, 97]

/-- Byte image of `fwrite(&header, sizeof(wav_header_t), 1, fp)`: the 44-byte
struct image, fields in declaration order, multi-byte integers in host byte
order (no padding: every field of `wav_header_t` is naturally aligned). -/
def headerBytes (hostLE : Bool) (h : wav_header_t) : List Nat :=
  riffTag ++ w32 hostLE h.file_size ++ waveTag ++ fmtTag ++
  w32 hostLE h.fmt_size ++ w16 hostLE h.audio_format ++
  w16 hostLE h.num_channels ++ w32 hostLE h.sample_rate ++
  w32 hostLE h.byte_rate ++ w16 hostLE h.block_align ++
  w16 hostLE h.bits_per_sample ++ dataTag ++ w32 hostLE h.data_size

/-- The 16-bit two's-complement bit pattern of a C `short` sample. -/
def sampleBits (s : Int) : Nat := (s % 2 ^ 16).toNat

/-- Byte image of `fwrite(sample_data, sizeof(short), count, fp)` over the
given samples: each 16-bit sample in order, in host byte order. -/
def payloadBytes (hostLE : Bool) (buf : List Int) : List Nat :=
  buf.foldr (fun s acc => w16 hostLE (sampleBits s) ++ acc) []

/-- The decoder metadata struct. Modelled from the spec: `qoa.h` is not under
this repository's sources; per spec sections 3 and 6 the decoder reports a
per-channel sample-frame count (`samples`), a channel count and a sample
rate, and yields a buffer of `samples * channels` interleaved samples. -/
structure qoa_desc where
  samples : Nat
  channels : Nat
  samplerate : Nat
deriving DecidableEq

/-- The bytes written to the output file on the success path of
`convert_qoa_to_wav` (qoa2wav.c lines 85-86): the header for
`num_samples = qoa.samples * qoa.channels`, then
`qoa.samples * qoa.channels` 16-bit samples from the decoded buffer
(both products in `unsigned int`, i.e. mod 2^32). -/
def wavFileBytes (hostLE : Bool) (q : qoa_desc) (buf : List Int) : List Nat :=
  headerBytes hostLE
      (write_wav_header q.samplerate q.channels (q.samples * q.channels)) ++
  payloadBytes hostLE (buf.take (q.samples * q.channels % 2 ^ 32))

/-- Observable outcome of one `convert_qoa_to_wav` call. `written` is the
byte content of the created output file (`none` when no file was created);
`attemptedOpenOut` records whether `fopen(wav_path, "wb")` was reached. -/
structure ConvResult where
  exit : Nat
  stdoutMsgs : List String
  stderrMsgs : List String
  written : Option (List Nat)
  attemptedOpenOut : Bool
deriving DecidableEq

/-- `convert_qoa_to_wav` (qoa2wav.c lines 47-92) after the input file has
been read into `qoaBytes` (the caller, `main`, has already checked the input
opens; the input-open-failure branch lives in `mainModel`'s `fs` lookup).
`decode` is the opaque `qoa_decode` oracle; `canCreateOut` tells whether
`fopen(wav_path, "wb")` would succeed. -/
def convert_qoa_to_wav (hostLE : Bool)
    (decode : List Nat → Option (qoa_desc × List Int))
    (qoaBytes : List Nat) (canCreateOut : Bool)
    (qoa_path wav_path : String) : ConvResult :=
  match decode qoaBytes with
  | none =>
    { exit := 1
      stdoutMsgs := []
      stderrMsgs := ["Error: Failed to decode QOA file"]
      written := none
      attemptedOpenOut := false }
  | some (q, buf) =>
    let decodedMsg := "Decoded: " ++ toString q.samples ++ " samples, " ++
      toString q.channels ++ " channels, " ++ toString q.samplerate ++ " Hz"
    if canCreateOut then
      { exit := 0
        stdoutMsgs := [decodedMsg,
          "✓ Converted: " ++ qoa_path ++ " -> " ++ wav_path]
        stderrMsgs := []
        written := some (wavFileBytes hostLE q buf)
        attemptedOpenOut := true }
    else
      { exit := 1
        stdoutMsgs := [decodedMsg]
        stderrMsgs := ["Error: Cannot create WAV file: " ++ wav_path]
        written := none
        attemptedOpenOut := true }

/-- Index of the last occurrence of a character in a list, as found by
`strrchr`. -/
def lastIdxOf (c : Char) : List Char → Option Nat
  | [] => none
  | a :: rest =>
    match lastIdxOf c rest with
    | some i => some (i + 1)
    | none => if a = c then some 0 else none

/-- The output-path derivation in `main` (qoa2wav.c lines 115-122):
`strrchr(wav_path, '.')` finds the last dot anywhere in the copied input
path; if present, `strcpy(ext, ".wav")` overwrites from that dot on;
otherwise `strcat(wav_path, ".wav")` appends. -/
def deriveWavPathL (s : List Char) : List Char :=
  match lastIdxOf '.' s with
  | some i => s.take i ++ ".wav".toList
  | none => s ++ ".wav".toList

/-- `deriveWavPathL` on `String`. -/
def deriveWavPath (s : String) : String := ⟨deriveWavPathL s.data⟩

/-- Observable outcome of one `main` invocation. `written` pairs the output
path with the created file's bytes (`none` when no file was created). -/
structure MainResult where
  exit : Nat
  stdoutMsgs : List String
  stderrMsgs : List String
  written : Option (String × List Nat)
  attemptedOpenOut : Bool
deriving DecidableEq

/-- The usage text printed by `main` (qoa2wav.c lines 96-98), to stdout. -/
def usageLines (prog : String) : List String :=
  ["QOA to WAV Converter",
   "Usage: " ++ prog ++ " <input.qoa> [output.wav]",
   "   or: " ++ prog ++ " <directory>"]

/-- The single-file conversion job `main` always runs once its argument
opens: `convert_qoa_to_wav(argv[1], wav_path)` with the given output path. -/
def runJob (hostLE : Bool) (decode : List Nat → Option (qoa_desc × List Int))
    (canCreate : String → Bool) (input wav_path : String)
    (bytes : List Nat) : MainResult :=
  let r := convert_qoa_to_wav hostLE decode bytes (canCreate wav_path)
    input wav_path
  { exit := r.exit
    stdoutMsgs := r.stdoutMsgs
    stderrMsgs := r.stderrMsgs
    written := r.written.map (fun b => (wav_path, b))
    attemptedOpenOut := r.attemptedOpenOut }

/-- `main` (qoa2wav.c lines 94-125). `fs` maps a path to the byte content
`fopen`+read yields there (`none` when `fopen` fails). Note the source has
no directory-enumeration branch: every openable argument goes through the
single-file path. -/
def mainModel (hostLE : Bool)
    (decode : List Nat → Option (qoa_desc × List Int))
    (fs : String → Option (List Nat)) (canCreate : String → Bool)
    (prog : String) (args : List String) : MainResult :=
  match args with
  | [] =>
    { exit := 1
      stdoutMsgs := usageLines prog
      stderrMsgs := []
      written := none
      attemptedOpenOut := false }
  | input :: rest =>
    match fs input with
    | none =>
      { exit := 1
        stdoutMsgs := []
        stderrMsgs := ["Error: Cannot access: " ++ input]
        written := none
        attemptedOpenOut := false }
    | some bytes =>
      let wav_path :=
        match rest with
        | out :: _ => out
        | [] => deriveWavPath input
      runJob hostLE decode canCreate input wav_path bytes

/-! ## Helper lemmas -/

theorem w16_length (hostLE : Bool) (n : Nat) : (w16 hostLE n).length = 2 := by
  cases hostLE <;> rfl

theorem w32_length (hostLE : Bool) (n : Nat) : (w32 hostLE n).length = 4 := by
  cases hostLE <;> rfl

theorem headerBytes_length (hostLE : Bool) (h : wav_header_t) :
    (headerBytes hostLE h).length = 44 := by
  cases hostLE <;>
    simp [headerBytes, w32, w16, le32, le16, be32, be16, riffTag, waveTag,
      fmtTag, dataTag]

theorem payloadBytes_length (hostLE : Bool) (buf : List Int) :
    (payloadBytes hostLE buf).length = 2 * buf.length := by
  induction buf with
  | nil => rfl
  | cons s rest ih =>
    simp [payloadBytes] at ih ⊢
    rw [w16_length]
    omega

theorem headerBytes_riff (h : wav_header_t) :
    (headerBytes true h).take 4 = riffTag := rfl

theorem headerBytes_file_size_field (h : wav_header_t) :
    ((headerBytes true h).drop 4).take 4 = le32 h.file_size := rfl

theorem headerBytes_wave (h : wav_header_t) :
    ((headerBytes true h).drop 8).take 4 = waveTag := rfl

theorem headerBytes_fmt (h : wav_header_t) :
    ((headerBytes true h).drop 12).take 4 = fmtTag := rfl

theorem headerBytes_fmt_size_field (h : wav_header_t) :
    ((headerBytes true h).drop 16).take 4 = le32 h.fmt_size := rfl

theorem headerBytes_audio_format_field (h : wav_header_t) :
    ((headerBytes true h).drop 20).take 2 = le16 h.audio_format := rfl

theorem headerBytes_num_channels_field (h : wav_header_t) :
    ((headerBytes true h).drop 22).take 2 = le16 h.num_channels := rfl

theorem headerBytes_sample_rate_field (h : wav_header_t) :
    ((headerBytes true h).drop 24).take 4 = le32 h.sample_rate := rfl

theorem headerBytes_byte_rate_field (h : wav_header_t) :
    ((headerBytes true h).drop 28).take 4 = le32 h.byte_rate := rfl

theorem headerBytes_block_align_field (h : wav_header_t) :
    ((headerBytes true h).drop 32).take 2 = le16 h.block_align := rfl

theorem headerBytes_bits_field (h : wav_header_t) :
    ((headerBytes true h).drop 34).take 2 = le16 h.bits_per_sample := rfl

theorem headerBytes_data (h : wav_header_t) :
    ((headerBytes true h).drop 36).take 4 = dataTag := rfl

theorem headerBytes_data_size_field (h : wav_header_t) :
    ((headerBytes true h).drop 40).take 4 = le32 h.data_size := rfl

/-! ## Claims -/

/-- C1: the claim reads that the emitted header's Subchunk2Size equals
`frame_count * channel_count * 2` (and ChunkSize that plus 36). The code
violates it: `convert_qoa_to_wav` passes `qoa.samples * qoa.channels` as
`num_samples` and `write_wav_header` multiplies by `channels * 2` again,
so for a 3-frame stereo stream the Subchunk2Size field holds 24 while the
payload actually written is 12 bytes (and the claim requires 12). -/
theorem c1_data_size_code_bug :
    ((wavFileBytes true ⟨3, 2, 44100⟩ [10, -10, 20, -20, 30, -30]).drop 40).take 4
        = le32 24 ∧
    (wavFileBytes true ⟨3, 2, 44100⟩ [10, -10, 20, -20, 30, -30]).length
        = 44 + 12 ∧
    le32 24 ≠ le32 (3 * 2 * 2) := by
  refine ⟨by decide, by decide, by decide⟩

/-- C2: the bytes following the 44-byte header are exactly the decoded
buffer's 16-bit samples, in their original interleaved order, and the
total emitted length is `44 + frame_count * channel_count * 2`. Holds for
every buffer satisfying the decoder's invariant
`buf.length = samples * channels` (with the sample count in `uint32_t`
range, as the C `fwrite` count is). -/
theorem c2_payload_order_and_length (q : qoa_desc) (buf : List Int)
    (hlen : buf.length = q.samples * q.channels)
    (hfit : q.samples * q.channels < 2 ^ 32) :
    (wavFileBytes true q buf).drop 44 = payloadBytes true buf ∧
    (wavFileBytes true q buf).length = 44 + q.samples * q.channels * 2 := by
  have htake : buf.take (q.samples * q.channels % 2 ^ 32) = buf := by
    rw [Nat.mod_eq_of_lt hfit, ← hlen, List.take_length]
  constructor
  · rw [wavFileBytes, htake,
      ← headerBytes_length true
        (write_wav_header q.samplerate q.channels (q.samples * q.channels)),
      List.drop_left]
  · rw [wavFileBytes, htake, List.length_append, headerBytes_length,
      payloadBytes_length, hlen]
    ring

/-- Witness for C2 at the spec's own example: a 2-channel, 3-frame buffer
`[L0,R0,L1,R1,L2,R2]`. -/
theorem c2_witness :
    (wavFileBytes true ⟨3, 2, 44100⟩ [1, 2, 3, 4, 5, 6]).drop 44
        = payloadBytes true [1, 2, 3, 4, 5, 6] ∧
    (wavFileBytes true ⟨3, 2, 44100⟩ [1, 2, 3, 4, 5, 6]).length
        = 44 + 3 * 2 * 2 :=
  c2_payload_order_and_length ⟨3, 2, 44100⟩ [1, 2, 3, 4, 5, 6]
    (by decide) (by decide)

/-- C3: a zero-frame stream yields exactly 44 bytes — the header only —
with Subchunk2Size 0 and the tags "RIFF", "WAVE", "fmt ", "data" at byte
offsets 0, 8, 12 and 36, for every sample rate and channel count (in
particular the spec's instance `sample_rate = 44100, channel_count = 2`). -/
theorem c3_zero_frame_layout (sr ch : Nat) :
    (wavFileBytes true ⟨0, ch, sr⟩ []).length = 44 ∧
    ((wavFileBytes true ⟨0, ch, sr⟩ []).drop 40).take 4 = le32 0 ∧
    (wavFileBytes true ⟨0, ch, sr⟩ []).take 4 = riffTag ∧
    ((wavFileBytes true ⟨0, ch, sr⟩ []).drop 8).take 4 = waveTag ∧
    ((wavFileBytes true ⟨0, ch, sr⟩ []).drop 12).take 4 = fmtTag ∧
    ((wavFileBytes true ⟨0, ch, sr⟩ []).drop 36).take 4 = dataTag := by
  have h0 : wavFileBytes true ⟨0, ch, sr⟩ []
      = headerBytes true (write_wav_header sr ch 0) := by
    simp [wavFileBytes, payloadBytes]
  have hd : (write_wav_header sr ch 0).data_size = 0 := by
    simp [write_wav_header]
  refine ⟨?_, ?_, ?_, ?_, ?_, ?_⟩ <;> rw [h0]
  · exact headerBytes_length true _
  · rw [headerBytes_data_size_field, hd]
  · exact headerBytes_riff _
  · exact headerBytes_wave _
  · exact headerBytes_fmt _
  · exact headerBytes_data _

/-- C4 counterexample: the claim asserts `ChunkSize = Subchunk2Size + 36`
for every input to the header writer, but both fields are `uint32_t`:
at `num_samples = 2^31 - 1`, one channel, `data_size = 2^32 - 2` and the
`file_size` field wraps to 34, which is not `(2^32 - 2) + 36`. -/
theorem c4_counterexample :
    ¬ ((write_wav_header 44100 1 (2 ^ 31 - 1)).file_size
        = (write_wav_header 44100 1 (2 ^ 31 - 1)).data_size + 36) := by
  decide

/-- C4 amended: the two size fields of every emitted header are consistent
in the header's own 32-bit arithmetic: `ChunkSize = (Subchunk2Size + 36)
mod 2^32` for every `(sample_rate, channels, num_samples)` input; the plain
sum equals it whenever `data_size + 36` fits in 32 bits. -/
theorem c4_size_fields_consistent (sr ch ns : Nat) :
    (write_wav_header sr ch ns).file_size
      = ((write_wav_header sr ch ns).data_size + 36) % 2 ^ 32 := rfl

/-- C5 counterexample: the claim asserts little-endian serialization
"regardless of the host machine's byte order", but the code writes the
header struct's memory image (`fwrite(&header, ...)`), which is in host
byte order: on a big-endian host the SampleRate field of a 44100 Hz
header is emitted as [0,0,172,68], not as its little-endian image
[68,172,0,0]. -/
theorem c5_counterexample :
    ((headerBytes false (write_wav_header 44100 2 0)).drop 24).take 4
      ≠ le32 44100 := by
  decide

/-- C5 amended: on a little-endian host the emitted header has every
multi-byte integer field in little-endian byte order at its canonical
offset, and every payload sample is emitted as its 16-bit two's-complement
little-endian image, in buffer order. (The code's struct `fwrite` makes
the byte order that of the host, so this holds for little-endian hosts
rather than unconditionally.) -/
theorem c5_little_endian_on_le_host (h : wav_header_t) (s : Int)
    (rest : List Int) :
    ((headerBytes true h).drop 4).take 4 = le32 h.file_size ∧
    ((headerBytes true h).drop 16).take 4 = le32 h.fmt_size ∧
    ((headerBytes true h).drop 20).take 2 = le16 h.audio_format ∧
    ((headerBytes true h).drop 22).take 2 = le16 h.num_channels ∧
    ((headerBytes true h).drop 24).take 4 = le32 h.sample_rate ∧
    ((headerBytes true h).drop 28).take 4 = le32 h.byte_rate ∧
    ((headerBytes true h).drop 32).take 2 = le16 h.block_align ∧
    ((headerBytes true h).drop 34).take 2 = le16 h.bits_per_sample ∧
    ((headerBytes true h).drop 40).take 4 = le32 h.data_size ∧
    payloadBytes true (s :: rest) = le16 (sampleBits s) ++ payloadBytes true rest ∧
    payloadBytes true [] = ([] : List Nat) :=
  ⟨headerBytes_file_size_field h, headerBytes_fmt_size_field h,
   headerBytes_audio_format_field h, headerBytes_num_channels_field h,
   headerBytes_sample_rate_field h, headerBytes_byte_rate_field h,
   headerBytes_block_align_field h, headerBytes_bits_field h,
   headerBytes_data_size_field h, by simp [payloadBytes, w16], rfl⟩

theorem lastIdxOf_eq_none (c : Char) (s : List Char) (hn : c ∉ s) :
    lastIdxOf c s = none := by
  induction s with
  | nil => rfl
  | cons a rest ih =>
    simp only [List.mem_cons, not_or] at hn
    simp [lastIdxOf, ih hn.2]
    exact fun h => hn.1 h.symm

theorem lastIdxOf_append_cons (c : Char) (s t : List Char) (hn : c ∉ t) :
    lastIdxOf c (s ++ c :: t) = some s.length := by
  induction s with
  | nil => simp [lastIdxOf, lastIdxOf_eq_none c t hn]
  | cons a s ih => simp [lastIdxOf, ih]

/-- C6 counterexample: the claim reads that an input with no file
extension gets ".wav" appended "without corrupting the original name",
but `strrchr` finds the last dot anywhere in the path: for the input
"my.dir/track" (whose final component has no extension) the code yields
"my.wav", not "my.dir/track.wav". -/
theorem c6_counterexample :
    deriveWavPath "my.dir/track" = "my.wav" ∧
    "my.wav" ≠ "my.dir/track" ++ ".wav" := by
  exact ⟨rfl, by decide⟩

/-- C6 amended: the derivation truncates the input at the last '.'
occurring anywhere in the path string and appends ".wav"; when the input
contains no '.' at all, ".wav" is appended to the whole input. This
coincides with the claim's extension-replacement rule exactly when the
last dot (if any) lies in the file name, e.g. "track.qoa" yields
"track.wav" and "track" yields "track.wav", but "my.dir/track" yields
"my.wav". -/
theorem c6_last_dot_derivation :
    (∀ s : List Char, '.' ∉ s → deriveWavPathL s = s ++ ".wav".toList) ∧
    (∀ s t : List Char, '.' ∉ t →
      deriveWavPathL (s ++ '.' :: t) = s ++ ".wav".toList) := by
  constructor
  · intro s hs
    simp [deriveWavPathL, lastIdxOf_eq_none '.' s hs]
  · intro s t ht
    simp only [deriveWavPathL, lastIdxOf_append_cons '.' s t ht]
    rw [List.take_left]

/-- Witness for C6 at the claim's own examples: "track" (no dot, append)
and "track.qoa" (dot in the file name, replacement). -/
theorem c6_witness :
    deriveWavPathL "track".toList = "track".toList ++ ".wav".toList ∧
    deriveWavPathL ("track".toList ++ '.' :: "qoa".toList)
      = "track".toList ++ ".wav".toList :=
  ⟨c6_last_dot_derivation.1 "track".toList (by decide),
   c6_last_dot_derivation.2 "track".toList "qoa".toList (by decide)⟩

/-- C7: whenever the QOA decode of the input bytes fails,
`convert_qoa_to_wav` reports the decode error on stderr and exits 1,
creates no output file, and never even reaches the `fopen(wav_path, "wb")`
call — the failure return precedes any write attempt to the output path. -/
theorem c7_decode_failure_no_output (hostLE : Bool)
    (decode : List Nat → Option (qoa_desc × List Int)) (bytes : List Nat)
    (canCreateOut : Bool) (inPath outPath : String)
    (hfail : decode bytes = none) :
    (convert_qoa_to_wav hostLE decode bytes canCreateOut inPath outPath).exit
      = 1 ∧
    (convert_qoa_to_wav hostLE decode bytes canCreateOut inPath
      outPath).written = none ∧
    (convert_qoa_to_wav hostLE decode bytes canCreateOut inPath
      outPath).attemptedOpenOut = false ∧
    (convert_qoa_to_wav hostLE decode bytes canCreateOut inPath
      outPath).stderrMsgs = ["Error: Failed to decode QOA file"] := by
  refine ⟨?_, ?_, ?_, ?_⟩ <;> simp [convert_qoa_to_wav, hfail]

/-- Witness for C7: the empty input byte sequence with a decoder that
rejects it. -/
theorem c7_witness :
    (convert_qoa_to_wav true (fun _ => none) [] true "in.qoa" "in.wav").exit
      = 1 ∧
    (convert_qoa_to_wav true (fun _ => none) [] true "in.qoa"
      "in.wav").written = none ∧
    (convert_qoa_to_wav true (fun _ => none) [] true "in.qoa"
      "in.wav").attemptedOpenOut = false ∧
    (convert_qoa_to_wav true (fun _ => none) [] true "in.qoa"
      "in.wav").stderrMsgs = ["Error: Failed to decode QOA file"] :=
  c7_decode_failure_no_output true (fun _ => none) [] true "in.qoa"
    "in.wav" rfl

/-- A file system for the C8 scenario: a directory "sounds" (whose `fopen`
succeeds on POSIX, yielding unparseable bytes) containing the valid QOA
file "sounds/valid.qoa". -/
def dirFS : String → Option (List Nat) := fun p =>
  if p = "sounds" then some [0]
  else if p = "sounds/valid.qoa" then some [1]
  else none

/-- A decode oracle for the C8 scenario: accepts exactly the content of
"sounds/valid.qoa". -/
def demoDecode : List Nat → Option (qoa_desc × List Int) := fun b =>
  if b = [1] then some (⟨1, 1, 44100⟩, [5]) else none

/-- C8: the claim reads that a directory argument triggers batch
conversion of the files inside it, with per-file independence. The code
has no directory branch at all: `main` runs the single-file path on the
directory argument itself, which fails at decode, and the valid QOA file
inside the directory is never enumerated or converted (exit 1, nothing
written) — even though converting that file directly succeeds, and the
usage text advertises a `<directory>` mode. -/
theorem c8_no_directory_mode :
    (mainModel true demoDecode dirFS (fun _ => true) "qoa2wav"
      ["sounds"]).exit = 1 ∧
    (mainModel true demoDecode dirFS (fun _ => true) "qoa2wav"
      ["sounds"]).written = none ∧
    (mainModel true demoDecode dirFS (fun _ => true) "qoa2wav"
      ["sounds"]).stderrMsgs = ["Error: Failed to decode QOA file"] ∧
    (mainModel true demoDecode dirFS (fun _ => true) "qoa2wav"
      ["sounds/valid.qoa"]).exit = 0 ∧
    (mainModel true demoDecode dirFS (fun _ => true) "qoa2wav"
      ["sounds/valid.qoa"]).written ≠ none := by
  refine ⟨rfl, rfl, rfl, rfl, ?_⟩
  decide

/-- C9 counterexample: the claim reads that both the no-argument case and
the unreachable-input case print the usage text to standard error. In the
code, `main` with no arguments prints the usage text with `printf` — to
standard output, with nothing on standard error — and an unreachable
input path prints the diagnostic "Error: Cannot access: ..." (not the
usage text) to standard error. -/
theorem c9_counterexample :
    (mainModel true (fun _ => none) (fun _ => none) (fun _ => true)
      "qoa2wav" []).stderrMsgs = [] ∧
    (mainModel true (fun _ => none) (fun _ => none) (fun _ => true)
      "qoa2wav" []).stdoutMsgs = usageLines "qoa2wav" ∧
    (mainModel true (fun _ => none) (fun _ => none) (fun _ => true)
      "qoa2wav" ["missing.qoa"]).stderrMsgs
        = ["Error: Cannot access: missing.qoa"] ∧
    "Error: Cannot access: missing.qoa" ∉ usageLines "qoa2wav" := by
  refine ⟨rfl, rfl, ?_, by decide⟩
  decide

/-- C9 amended: with no arguments the tool prints the usage text to
standard output (nothing to standard error) and exits 1; with an
unreachable input path it prints the diagnostic
"Error: Cannot access: <path>" to standard error (nothing to standard
output, and no output file) and exits 1. Both exits are non-zero as the
claim says; only the stream and the unreachable-case text differ. -/
theorem c9_usage_and_access_error (hostLE : Bool)
    (decode : List Nat → Option (qoa_desc × List Int))
    (fs : String → Option (List Nat)) (canCreate : String → Bool)
    (prog input : String) (rest : List String)
    (hmiss : fs input = none) :
    (mainModel hostLE decode fs canCreate prog []).exit = 1 ∧
    (mainModel hostLE decode fs canCreate prog []).stdoutMsgs
      = usageLines prog ∧
    (mainModel hostLE decode fs canCreate prog []).stderrMsgs = [] ∧
    (mainModel hostLE decode fs canCreate prog (input :: rest)).exit = 1 ∧
    (mainModel hostLE decode fs canCreate prog (input :: rest)).stderrMsgs
      = ["Error: Cannot access: " ++ input] ∧
    (mainModel hostLE decode fs canCreate prog (input :: rest)).stdoutMsgs
      = [] ∧
    (mainModel hostLE decode fs canCreate prog (input :: rest)).written
      = none := by
  refine ⟨rfl, rfl, rfl, ?_, ?_, ?_, ?_⟩ <;> simp [mainModel, hmiss]

/-- Witness for C9 amended: a concrete missing input path. -/
theorem c9_witness :
    (mainModel true (fun _ => none) (fun _ => none) (fun _ => true)
      "prog" []).exit = 1 ∧
    (mainModel true (fun _ => none) (fun _ => none) (fun _ => true)
      "prog" []).stdoutMsgs = usageLines "prog" ∧
    (mainModel true (fun _ => none) (fun _ => none) (fun _ => true)
      "prog" []).stderrMsgs = [] ∧
    (mainModel true (fun _ => none) (fun _ => none) (fun _ => true)
      "prog" ["x.qoa"]).exit = 1 ∧
    (mainModel true (fun _ => none) (fun _ => none) (fun _ => true)
      "prog" ["x.qoa"]).stderrMsgs = ["Error: Cannot access: " ++ "x.qoa"] ∧
    (mainModel true (fun _ => none) (fun _ => none) (fun _ => true)
      "prog" ["x.qoa"]).stdoutMsgs = [] ∧
    (mainModel true (fun _ => none) (fun _ => none) (fun _ => true)
      "prog" ["x.qoa"]).written = none :=
  c9_usage_and_access_error true (fun _ => none) (fun _ => none)
    (fun _ => true) "prog" "x.qoa" [] rfl

/-- C10: when a second command-line argument is present it is used as the
output path exactly as given — the conversion job is the same `runJob` as
in the derived-path case, with the verbatim argument in place of the
derived path and nothing else changed. -/
theorem c10_explicit_output_verbatim (hostLE : Bool)
    (decode : List Nat → Option (qoa_desc × List Int))
    (fs : String → Option (List Nat)) (canCreate : String → Bool)
    (prog input out : String) (rest : List String) (bytes : List Nat)
    (hopen : fs input = some bytes) :
    mainModel hostLE decode fs canCreate prog (input :: out :: rest)
      = runJob hostLE decode canCreate input out bytes ∧
    mainModel hostLE decode fs canCreate prog [input]
      = runJob hostLE decode canCreate input (deriveWavPath input) bytes := by
  constructor <;> simp [mainModel, hopen]

/-- Witness for C10: an explicit output path that no derivation rule would
ever produce is passed through verbatim. -/
theorem c10_witness :
    mainModel true (fun _ => none) (fun _ => some [7]) (fun _ => true)
      "prog" ["in.qoa", "../weird name.output"]
      = runJob true (fun _ => none) (fun _ => true) "in.qoa"
          "../weird name.output" [7] ∧
    mainModel true (fun _ => none) (fun _ => some [7]) (fun _ => true)
      "prog" ["in.qoa"]
      = runJob true (fun _ => none) (fun _ => true) "in.qoa"
          (deriveWavPath "in.qoa") [7] :=
  c10_explicit_output_verbatim true (fun _ => none) (fun _ => some [7])
    (fun _ => true) "prog" "in.qoa" "../weird name.output" [] [7] rfl

end Qoa2Wav
